import Mathlib

/-
Shallow embedding of the core of the options_analysis_backend repository:
the Fyers session/token lifecycle (app/services/fyers.py), symbol
resolution (app/utils/symbol_utils.py), the option-chain processing and
margin/premium pipeline (app/utils/calculations.py) and the HTTP router
glue (app/routers/option_chain.py).

Machine conventions: wall-clock instants and prices are rationals
(Python floats carry exact decimal literals in every scenario used here),
token strings are Lean Strings with the empty string standing for a
missing/falsy token, and every fallible Python function becomes a Lean
function into Except.  Outbound HTTP calls are modelled by oracle
arguments describing the response the network would deliver.
-/

namespace OptionsBackend

/-! ### app/services/fyers.py — token lifecycle -/

/-- Mutable token state of a FyersService instance: self.access_token and
self.token_expires_at (fyers.py lines 40-41).  The empty string models a
falsy access token. -/
structure CredState where
  access_token : String
  token_expires_at : ℚ
deriving Repr, DecidableEq

/-- Response of the upstream token endpoint as seen by
refresh_access_token: a transport-level failure (requests exception,
which includes non-2xx via raise_for_status), an unparseable JSON body,
or a parsed 2xx body with its access_token field ("" when missing or
falsy) and optional expires_in field. -/
inductive RefreshResp where
  | transportErr
  | badJson
  | ok (access_token : String) (expires_in : Option ℚ)
deriving Repr, DecidableEq

/-- FyersService.refresh_access_token (fyers.py lines 80-124): posts to
the token endpoint; transport failure or bad JSON or a falsy access_token
raise TokenRefreshError; otherwise the new state stores the returned
token with expiry now + expires_in (default 86400) - 60. -/
def refresh_access_token (now : ℚ) (resp : RefreshResp) :
    Except String CredState :=
  match resp with
  | .transportErr => .error "TokenRefreshError: Failed to refresh token"
  | .badJson => .error "TokenRefreshError: Invalid JSON response"
  | .ok tok expires_in =>
      if tok = "" then .error "TokenRefreshError: No access token in response"
      else .ok { access_token := tok,
                 token_expires_at := now + expires_in.getD 86400 - 60 }

/-- FyersService.authenticate (fyers.py lines 59-78): when the access
token is falsy or current_time >= token_expires_at it calls
refresh_access_token, otherwise it reuses the cached token and performs
no network call.  The second component counts the refresh HTTP calls
issued by this check (0 or 1); on a refresh failure the one call was
still issued and the error (wrapped as AuthenticationError) is reported. -/
def authenticate (st : CredState) (now : ℚ) (resp : RefreshResp) :
    Except String CredState × Nat :=
  if st.access_token = "" ∨ st.token_expires_at ≤ now then
    (refresh_access_token now resp, 1)
  else
    (.ok st, 0)

/-- The full process-wide settings record (app/core/config.py). -/
structure SettingsState where
  FYERS_CLIENT_ID : String
  FYERS_CLIENT_ID_HASH : String
  FYERS_ACCESS_TOKEN : String
  FYERS_REFRESH_TOKEN : String
  FYERS_PIN : String
  FYERS_TOKEN_EXPIRES_AT : ℤ
deriving Repr, DecidableEq

/-- An .env file as the list of its key=value entries in order.  Lines
that are blank or contain no equals sign are dropped by the reader loop
in update_env_file (fyers.py lines 148-151) before any entry is built,
so they are not represented. -/
def EnvFile : Type := List (String × String)

/-- The key-to-value mapping a Python dict built from the entries in
order realises: the last occurrence of a key wins. -/
def envLookup (env : EnvFile) (k : String) : Option String :=
  (env.reverse.find? (fun p => p.1 = k)).map Prod.snd

/-- FyersService.update_env_file (fyers.py lines 142-163) at the level of
the resulting key-to-value mapping: the dict parsed from the file is
updated with new_vars and written back, so a key bound in new_vars gets
its new value and every other key keeps the value the file gave it. -/
def update_env_file (env : EnvFile) (new_vars : List (String × String))
    (k : String) : Option String :=
  match new_vars.reverse.find? (fun p => p.1 = k) with
  | some p => some p.2
  | none => envLookup env k

/-- FyersService.save_tokens (fyers.py lines 126-140): writes the fresh
access token and integer expiry (the caller passes int of
self.token_expires_at) into settings, and updates the .env file with
exactly the two keys FYERS_ACCESS_TOKEN and FYERS_TOKEN_EXPIRES_AT. -/
def save_tokens (settings : SettingsState) (env : EnvFile)
    (access_token : String) (expires_at_int : ℤ) :
    SettingsState × (String → Option String) :=
  ({ settings with
      FYERS_ACCESS_TOKEN := access_token,
      FYERS_TOKEN_EXPIRES_AT := expires_at_int },
   update_env_file env
     [("FYERS_ACCESS_TOKEN", access_token),
      ("FYERS_TOKEN_EXPIRES_AT", toString expires_at_int)])

/-! ### app/services/fyers.py — option chain fetch -/

/-- One raw row of the upstream optionsChain array.  The upstream row
carries more fields; ltp stands for those the projection step discards
(fyers.py line 205 keeps only ask, bid, option_type, strike_price,
symbol). -/
structure RawQuote where
  ask : ℚ
  bid : ℚ
  option_type : String
  strike_price : ℚ
  symbol : String
  ltp : ℚ
deriving Repr, DecidableEq

/-- A row after the column projection of fyers.py line 205. -/
structure ChainQuote where
  ask : ℚ
  bid : ℚ
  option_type : String
  strike_price : ℚ
  symbol : String
deriving Repr, DecidableEq

/-- The column projection of fyers.py line 205. -/
def projectQuote (r : RawQuote) : ChainQuote :=
  { ask := r.ask, bid := r.bid, option_type := r.option_type,
    strike_price := r.strike_price, symbol := r.symbol }

/-- Upstream option-chain endpoint response: status flag s, message used
when s is not ok, and the optionsChain rows (none when the data object is
missing, falsy, or lacks the optionsChain key). -/
structure ChainResp where
  s : String
  message : String
  optionsChain : Option (List RawQuote)
deriving Repr, DecidableEq

/-- FyersService.get_option_chain (fyers.py lines 165-216): a falsy
symbol raises ValueError, caught as OptionChainError (the strike_count
int check always passes in this typed model); then, on the response the
request brings back, a non-ok status flag or a missing optionsChain
raise OptionChainError; an empty optionsChain list yields a DataFrame
with no columns so the ask lookup raises, caught as OptionChainError;
otherwise rows with ask equal to zero are removed, the five columns are
kept, and the first remaining row is dropped (iloc from 1). -/
def get_option_chain (symbol : String) (resp : ChainResp) :
    Except String (List ChainQuote) :=
  if symbol = "" then
    .error "OptionChainError: Invalid symbol or strike_count"
  else if resp.s ≠ "ok" then
    .error "OptionChainError: API returned error"
  else
    match resp.optionsChain with
    | none => .error "OptionChainError: No options chain data in response"
    | some rows =>
        if rows = [] then
          .error "OptionChainError: Failed to process option chain data"
        else
          .ok ((((rows.filter (fun r => r.ask ≠ 0))).map projectQuote).drop 1)

/-! ### app/utils/symbol_utils.py — symbol resolution -/

/-- Days since 1970-01-01 to a (year, month, day) civil date, the
standard era-based algorithm, matching the UTC date pandas derives from
an epoch-seconds timestamp (valid for all dates from 1970 on). -/
def civilFromDays (z : ℕ) : ℕ × ℕ × ℕ :=
  let zz := z + 719468
  let era := zz / 146097
  let doe := zz % 146097
  let yoe := (doe - doe / 1460 + doe / 36524 - doe / 146096) / 365
  let y := yoe + era * 400
  let doy := doe - (365 * yoe + yoe / 4 - yoe / 100)
  let mp := (5 * doy + 2) / 153
  let d := doy - (153 * mp + 2) / 5 + 1
  let m := if mp < 10 then mp + 3 else mp - 9
  (if m ≤ 2 then y + 1 else y, m, d)

/-- Left-pad a numeral to two digits, as strftime does for month and
day fields. -/
def pad2 (n : ℕ) : String :=
  if n < 10 then "0" ++ toString n else toString n

/-- The processing in process_symbol_data lines 99-100: epoch seconds to
a UTC calendar date rendered as YYYY-MM-DD. -/
def epochToDateStr (epoch : ℕ) : String :=
  let c := civilFromDays (epoch / 86400)
  toString c.1 ++ "-" ++ pad2 c.2.1 ++ "-" ++ pad2 c.2.2

/-- The minLotSize cell of a catalog record as it arrives from JSON:
either a numeric value (Python int or float) or something that fails the
isinstance int-or-float test in get_symbol_name line 153. -/
inductive LotVal where
  | num (q : ℚ)
  | nonNumeric
deriving Repr, DecidableEq

/-- One row of the raw instrument catalog (NSE_FO_sym_master.json keyed
by symbol id): the four columns symbol_utils.py keeps, with expiryDate
still in epoch seconds. -/
structure RawSymRecord where
  symbol : String
  optType : String
  underSym : String
  expiryDate : ℕ
  minLotSize : LotVal
deriving Repr, DecidableEq

/-- One processed catalog row after process_symbol_data: non-option rows
are gone and expiryDate is a YYYY-MM-DD string. -/
structure SymRecord where
  symbol : String
  optType : String
  underSym : String
  expiryDate : String
  minLotSize : LotVal
deriving Repr, DecidableEq

/-- process_symbol_data (symbol_utils.py lines 76-106): keep the four
required columns, drop rows whose optType is XX (futures and other
non-option instruments), and convert the epoch expiry to a date string. -/
def process_symbol_data (df : List RawSymRecord) : List SymRecord :=
  (df.filter (fun r => r.optType ≠ "XX")).map
    (fun r => { symbol := r.symbol, optType := r.optType,
                underSym := r.underSym,
                expiryDate := epochToDateStr r.expiryDate,
                minLotSize := r.minLotSize })

/-- A digit character to its value. -/
def digitVal (c : Char) : ℕ := c.toNat - 48

/-- Whether y is a leap year (Gregorian). -/
def isLeap (y : ℕ) : Bool :=
  y % 4 = 0 && (y % 100 ≠ 0 || y % 400 = 0)

/-- Days in month m of year y. -/
def daysInMonth (y m : ℕ) : ℕ :=
  if m = 2 then (if isLeap y then 29 else 28)
  else if m = 4 ∨ m = 6 ∨ m = 9 ∨ m = 11 then 30
  else 31

/-- Model of datetime.strptime with format %Y-%m-%d succeeding: the
canonical zero-padded YYYY-MM-DD rendering of a real calendar date.
(strptime additionally tolerates some unpadded digit runs; no claim in
this development depends on those fringe inputs.) -/
def validDateStr (s : String) : Bool :=
  match s.data with
  | [y1, y2, y3, y4, h1, m1, m2, h2, d1, d2] =>
      (y1.isDigit && y2.isDigit && y3.isDigit && y4.isDigit &&
       m1.isDigit && m2.isDigit && d1.isDigit && d2.isDigit &&
       h1 = '-' && h2 = '-') &&
      (let y := 1000 * digitVal y1 + 100 * digitVal y2 +
                10 * digitVal y3 + digitVal y4
       let m := 10 * digitVal m1 + digitVal m2
       let d := 10 * digitVal d1 + digitVal d2
       1 ≤ m && m ≤ 12 && 1 ≤ d && d ≤ daysInMonth y m)
  | _ => false

/-- validate_input_parameters in symbol_utils.py (lines 24-46): nonempty
instrument name, parseable YYYY-MM-DD expiry, side CE or PE; a failure is
a ValueError. -/
def SymbolUtils.validate_input_parameters (instrument_name expiry_date side : String) :
    Except String Unit :=
  if instrument_name = "" then .error "ValueError: Invalid instrument name"
  else if ¬ validDateStr expiry_date then
    .error "ValueError: Invalid expiry date format"
  else if side ≠ "CE" ∧ side ≠ "PE" then
    .error "ValueError: Side must be either CE or PE"
  else .ok ()

/-- The errors get_symbol_name surfaces, already in the HTTPException
form its except clauses produce (symbol_utils.py lines 159-182): the
status code and which original exception produced it. -/
inductive HErr where
  | http (code : ℕ) (detail : String)
deriving Repr, DecidableEq

/-- Result of the catalog download in fetch_symbol_data: a transport or
parse failure (DataFetchError) or the decoded table. -/
def CatalogFetch : Type := Except Unit (List RawSymRecord)

/-- fetch_symbol_data (symbol_utils.py lines 48-74): transport or parse
failures and an empty table are DataFetchError. -/
def fetch_symbol_data (oracle : CatalogFetch) :
    Except String (List RawSymRecord) :=
  match oracle with
  | .error _ => .error "DataFetchError: Failed to fetch symbol data"
  | .ok rows =>
      if rows = [] then .error "DataFetchError: Empty data received from Fyers API"
      else .ok rows

/-- The filter of symbol_utils.py lines 138-142. -/
def symMatches (instrument_name expiry_date side : String) (r : SymRecord) : Bool :=
  r.underSym = instrument_name && r.expiryDate = expiry_date && r.optType = side

/-- The tail of get_symbol_name (symbol_utils.py lines 149-157) applied
to the first matching row: read its minLotSize, raise ValueError when it
is not an int or float or is not positive, otherwise return the symbol
with the lot size truncated to int (all catalog lot sizes are positive
here, where Python int truncation is the floor). -/
def lotResolve (r : SymRecord) : Except HErr (String × ℤ) :=
  match r.minLotSize with
  | .nonNumeric => .error (.http 400 "ValueError: Invalid lot size")
  | .num q =>
      if q ≤ 0 then .error (.http 400 "ValueError: Invalid lot size")
      else .ok (r.symbol, ⌊q⌋)

/-- get_symbol_name (symbol_utils.py lines 108-182): validate, fetch and
process the catalog, filter on the (underlying, expiry, side) triple,
take the first matching row (index 0), and resolve its lot size.  The
except clauses map ValueError to HTTP 400, DataFetchError to 503,
SymbolNotFoundError to 404. -/
def get_symbol_name (oracle : CatalogFetch)
    (instrument_name expiry_date side : String) :
    Except HErr (String × ℤ) :=
  match SymbolUtils.validate_input_parameters instrument_name expiry_date side with
  | .error e => .error (.http 400 e)
  | .ok _ =>
    match fetch_symbol_data oracle with
    | .error e => .error (.http 503 e)
    | .ok raw =>
      match (process_symbol_data raw).filter
        (symMatches instrument_name expiry_date side) with
      | [] => .error (.http 404 "SymbolNotFoundError: No symbol found")
      | r :: _ => lotResolve r

/-! ### app/utils/calculations.py — pricing pipeline -/

/-- validate_input_parameters in calculations.py (lines 26-35): nonempty
instrument name, nonempty expiry string (no format check at this layer),
side CE or PE; a failure is a ValueError. -/
def Calculations.validate_input_parameters (instrument_name expiry_date side : String) :
    Except String Unit :=
  if instrument_name = "" then .error "ValueError: Invalid instrument name"
  else if expiry_date = "" then .error "ValueError: Invalid expiry date"
  else if side ≠ "CE" ∧ side ≠ "PE" then
    .error "ValueError: Side must be either CE or PE"
  else .ok ()

/-- A row of the frame produced by get_highest_option_prices: the ask
and bid columns are replaced by the single bidask column (the source
column name carries a slash) and the instrument name is attached. -/
structure PricedRow where
  option_type : String
  strike_price : ℚ
  symbol : String
  bidask : ℚ
  instrument_name : String
deriving Repr, DecidableEq

/-- get_highest_option_prices (calculations.py lines 37-87): an empty
frame raises DataProcessingError (the required-columns check always
passes in this typed model); rows are filtered to the requested option
type, an empty result raises; each surviving row gets
bidask set to ask when side is CE and bid otherwise, the ask and bid
columns are dropped and the instrument name column is added. -/
def get_highest_option_prices (rows : List ChainQuote)
    (instrument_name side : String) : Except String (List PricedRow) :=
  if rows = [] then .error "DataProcessingError: Empty options chain data"
  else
    match rows.filter (fun r => r.option_type = side) with
    | [] => .error "DataProcessingError: No data found for option type"
    | f₀ :: fs =>
        .ok ((f₀ :: fs).map (fun r =>
          { option_type := r.option_type, strike_price := r.strike_price,
            symbol := r.symbol,
            bidask := if side = "CE" then r.ask else r.bid,
            instrument_name := instrument_name }))

/-- FyersService construction (fyers.py lines 34-57): read the
credentials out of settings, fail as FyersServiceError when any of
client id, hash, refresh token or pin is falsy, then run authenticate
(whose possible save_tokens side effect on settings and the .env file is
modelled separately by save_tokens). -/
def FyersService.init (settings : SettingsState) (now : ℚ)
    (resp : RefreshResp) : Except String CredState :=
  if settings.FYERS_CLIENT_ID = "" ∨ settings.FYERS_CLIENT_ID_HASH = "" ∨
     settings.FYERS_REFRESH_TOKEN = "" ∨ settings.FYERS_PIN = "" then
    .error "FyersServiceError: Missing required credentials in settings"
  else
    match (authenticate
        { access_token := settings.FYERS_ACCESS_TOKEN,
          token_expires_at := (settings.FYERS_TOKEN_EXPIRES_AT : ℚ) }
        now resp).1 with
    | .error e => .error ("FyersServiceError: " ++ e)
    | .ok st => .ok st

/-- get_option_chain_data (calculations.py lines 89-154): validate,
resolve the symbol, build a FyersService, fetch the chain with the
hard-coded strike count 40, reject an empty chain, and run
get_highest_option_prices.  Exception mapping of the except clauses:
ValueError to 400, FyersServiceError (which OptionChainError extends) to
503, DataProcessingError to 422; the HTTPException that get_symbol_name
itself raises matches none of those and falls to the generic Exception
clause, so it resurfaces as a 500. -/
def get_option_chain_data (catalog : CatalogFetch)
    (settings : SettingsState) (now : ℚ) (resp : RefreshResp)
    (chainOracle : String → ℤ → ChainResp)
    (instrument_name expiry_date side : String) :
    Except HErr (List PricedRow × ℤ) :=
  match Calculations.validate_input_parameters instrument_name expiry_date side with
  | .error e => .error (.http 400 e)
  | .ok _ =>
  match get_symbol_name catalog instrument_name expiry_date side with
  | .error _ => .error (.http 500 "An unexpected error occurred")
  | .ok (symbol, lot_size) =>
  match FyersService.init settings now resp with
  | .error e => .error (.http 503 e)
  | .ok _ =>
  match get_option_chain symbol (chainOracle symbol 40) with
  | .error e => .error (.http 503 e)
  | .ok rows =>
  if rows = [] then
    .error (.http 422 "DataProcessingError: No option chain data received")
  else
    match get_highest_option_prices rows instrument_name side with
    | .error e => .error (.http 422 e)
    | .ok result => .ok (result, lot_size)

/-- Response of the span_margin endpoint for one symbol: a transport
failure (requests.RequestException, which raise_for_status turns non-2xx
into), an unparseable body (the json call raises, caught by the generic
except clause), or a parsed body whose data.total field is none when
data or total is missing. -/
inductive MarginResp where
  | transportErr
  | badJson
  | ok (total : Option ℚ)
deriving Repr, DecidableEq

/-- One row of the frame calculate_margin_and_premium returns: the input
row with its margin and premium cells, both initialised to zero. -/
structure ResultRow where
  row : PricedRow
  margin : ℚ
  premium : ℚ
deriving Repr, DecidableEq

/-- The body of the per-row loop of calculate_margin_and_premium
(calculations.py lines 189-224): a transport failure, a bad body, or a
missing or falsy data.total leave the row at margin zero and premium
zero via continue; otherwise margin is set to total and, since every row
of this pipeline carries the bidask column, premium to bidask times the
lot size. -/
def priceRow (api : String → MarginResp) (lot_size : ℤ) (r : PricedRow) :
    ResultRow :=
  match api r.symbol with
  | .transportErr => { row := r, margin := 0, premium := 0 }
  | .badJson => { row := r, margin := 0, premium := 0 }
  | .ok none => { row := r, margin := 0, premium := 0 }
  | .ok (some t) =>
      if t = 0 then { row := r, margin := 0, premium := 0 }
      else { row := r, margin := t, premium := r.bidask * (lot_size : ℚ) }

/-- calculate_margin_and_premium (calculations.py lines 156-234): an
empty frame raises MarginCalculationError, a non-positive lot size
raises ValueError rewrapped as MarginCalculationError; otherwise every
row is priced independently by the loop body, each per-row failure being
absorbed by its continue. -/
def calculate_margin_and_premium (api : String → MarginResp)
    (rows : List PricedRow) (lot_size : ℤ) :
    Except String (List ResultRow) :=
  if rows = [] then .error "MarginCalculationError: Empty DataFrame provided"
  else if lot_size ≤ 0 then
    .error "MarginCalculationError: Invalid lot size"
  else .ok (rows.map (priceRow api lot_size))

/-! ### app/routers/option_chain.py — the HTTP endpoint -/

/-- Python upper on a string, character by character. -/
def upperStr (s : String) : String := String.mk (s.data.map Char.toUpper)

/-- validate_parameters in the router (lines 27-39): nonempty name,
strptime-parseable date, side CE or PE after uppercasing; failures raise
InvalidParameterError, mapped to 400. -/
def Router.validate_parameters (instrument_name expiry_date side : String) :
    Except String Unit :=
  if instrument_name = "" then
    .error "InvalidParameterError: Invalid instrument name"
  else if ¬ validDateStr expiry_date then
    .error "InvalidParameterError: Invalid expiry date format"
  else if upperStr side ≠ "CE" ∧ upperStr side ≠ "PE" then
    .error "InvalidParameterError: Side must be either CE or PE"
  else .ok ()

/-- One record of the response body, the column selection of router line
77. -/
structure OutRec where
  instrument_name : String
  strike_price : ℚ
  option_type : String
  bidask : ℚ
  margin : ℚ
  premium : ℚ
deriving Repr, DecidableEq

/-- The column selection of router line 77. -/
def toOutRec (r : ResultRow) : OutRec :=
  { instrument_name := r.row.instrument_name,
    strike_price := r.row.strike_price,
    option_type := r.row.option_type,
    bidask := r.row.bidask, margin := r.margin, premium := r.premium }

/-- The endpoint body option_chain (router lines 49-110): validate, call
get_option_chain_data, raise DataFetchError (mapped to 404) when the
frame comes back empty, price the rows, project the output columns.  The
HTTPException raised by get_option_chain_data and the
MarginCalculationError from the pricing step match only the final
generic except clause, so both surface as the generic 500. -/
def option_chain (catalog : CatalogFetch) (settings : SettingsState)
    (now : ℚ) (resp : RefreshResp)
    (chainOracle : String → ℤ → ChainResp)
    (marginApi : String → MarginResp)
    (instrument_name expiry_date side : String) :
    Except HErr (List OutRec) :=
  match Router.validate_parameters instrument_name expiry_date side with
  | .error e => .error (.http 400 e)
  | .ok _ =>
  match get_option_chain_data catalog settings now resp chainOracle
      instrument_name expiry_date side with
  | .error _ =>
      .error (.http 500 "An unexpected error occurred while processing your request")
  | .ok (data, lot_size) =>
  if data = [] then
    .error (.http 404 "No data found for the specified parameters")
  else
    match calculate_margin_and_premium marginApi data lot_size with
    | .error _ =>
        .error (.http 500 "An unexpected error occurred while processing your request")
    | .ok rows => .ok (rows.map toOutRec)

/-! ### Interleaving model of concurrent requests

Each API request runs get_option_chain_data, which constructs its own
FyersService; construction copies the shared settings into instance
fields (fyers.py lines 40-41) and then authenticate checks the copy and,
when it is stale, refreshes and writes back through save_tokens.  There
is no lock anywhere in the code, so two requests interleave these two
phases freely.  The model gives each caller a program counter: at 0 it
snapshots the shared credential state, at 1 it runs the check-and-refresh
on its snapshot, at 2 it is done. -/

/-- The shared credential state (settings) together with a counter of
refresh HTTP calls issued so far. -/
structure GlobalSt where
  token : String
  expiry : ℚ
  refreshCalls : ℕ
deriving Repr, DecidableEq

/-- One caller of the token check: program counter and its private copy
of the credentials. -/
structure CallerSt where
  pc : ℕ
  tokenCopy : String
  expiryCopy : ℚ
deriving Repr, DecidableEq

/-- One step of one caller: snapshot at pc 0; at pc 1 the authenticate
check on the snapshot, issuing a refresh call (counted even when the
upstream rejects it) and publishing the new credentials on success. -/
def callerStep (now : ℚ) (resp : RefreshResp) (g : GlobalSt)
    (c : CallerSt) : GlobalSt × CallerSt :=
  if c.pc = 0 then
    (g, { pc := 1, tokenCopy := g.token, expiryCopy := g.expiry })
  else if c.pc = 1 then
    if c.tokenCopy = "" ∨ c.expiryCopy ≤ now then
      match refresh_access_token now resp with
      | .ok st =>
          ({ token := st.access_token, expiry := st.token_expires_at,
             refreshCalls := g.refreshCalls + 1 }, { c with pc := 2 })
      | .error _ =>
          ({ g with refreshCalls := g.refreshCalls + 1 }, { c with pc := 2 })
    else (g, { c with pc := 2 })
  else (g, c)

/-- Run one scheduled step: advance caller i, if it exists. -/
def sysStep (now : ℚ) (resp : RefreshResp)
    (st : GlobalSt × List CallerSt) (i : ℕ) : GlobalSt × List CallerSt :=
  match st.2[i]? with
  | none => st
  | some c =>
      let gc := callerStep now resp st.1 c
      (gc.1, st.2.set i gc.2)

/-- Run a whole interleaving schedule. -/
def runSched (now : ℚ) (resp : RefreshResp)
    (st : GlobalSt × List CallerSt) (sched : List ℕ) :
    GlobalSt × List CallerSt :=
  sched.foldl (sysStep now resp) st

/-- A caller that has not started yet. -/
def freshCaller : CallerSt := { pc := 0, tokenCopy := "", expiryCopy := 0 }

/-! ### Claims -/

/-- C1: a token-validity check with a present access token and the
current time strictly below the stored expiry returns the cached token
and issues zero refresh calls; an absent token or a current time at or
past the expiry initiates exactly one refresh; and two consecutive
checks inside the validity window issue zero refresh calls in total,
the state being unchanged between them. -/
theorem C1_token_validity_check (st : CredState) (now now2 : ℚ)
    (resp resp2 : RefreshResp) :
    (st.access_token ≠ "" → now < st.token_expires_at →
      authenticate st now resp = (.ok st, 0)) ∧
    ((st.access_token = "" ∨ st.token_expires_at ≤ now) →
      (authenticate st now resp).2 = 1) ∧
    (st.access_token ≠ "" → now < st.token_expires_at →
      now2 < st.token_expires_at →
      authenticate st now resp = (.ok st, 0) ∧
      authenticate st now2 resp2 = (.ok st, 0)) := by
  refine ⟨?_, ?_, ?_⟩
  · intro h1 h2
    simp [authenticate, h1, not_le.mpr h2]
  · intro h
    rcases h with h | h <;> simp [authenticate, h]
  · intro h1 h2 h3
    exact ⟨by simp [authenticate, h1, not_le.mpr h2],
           by simp [authenticate, h1, not_le.mpr h3]⟩

/-- Witness for C1 at concrete inputs. -/
theorem C1_token_validity_check_witness :
    authenticate ⟨"tok", 100⟩ 10 (.ok "x" none) = (.ok ⟨"tok", 100⟩, 0) ∧
    (authenticate ⟨"", 100⟩ 200 .transportErr).2 = 1 ∧
    authenticate ⟨"tok", 100⟩ 20 .badJson = (.ok ⟨"tok", 100⟩, 0) :=
  ⟨(C1_token_validity_check ⟨"tok", 100⟩ 10 20 (.ok "x" none) .badJson).1
      (by decide) (by decide),
   (C1_token_validity_check ⟨"", 100⟩ 200 0 .transportErr .transportErr).2.1
      (Or.inl rfl),
   ((C1_token_validity_check ⟨"tok", 100⟩ 10 20 (.ok "x" none) .badJson).2.2
      (by decide) (by decide) (by decide)).2⟩

/-- C2: for a success-status option-chain response, the returned quotes
are exactly the zero-ask-filtered rows with the first remaining row
dropped (projected to the five kept columns), so no returned row has a
zero ask and every surviving row appears. -/
theorem C2_chain_filter (symbol : String) (resp : ChainResp)
    (rows : List RawQuote) (hsym : symbol ≠ "") (hs : resp.s = "ok")
    (hrows : resp.optionsChain = some rows) (hne : rows ≠ []) :
    get_option_chain symbol resp =
      .ok (((rows.filter (fun r => r.ask ≠ 0)).map projectQuote).drop 1) ∧
    (∀ l, get_option_chain symbol resp = .ok l → ∀ q ∈ l, q.ask ≠ 0) := by
  have hmain : get_option_chain symbol resp =
      .ok (((rows.filter (fun r => r.ask ≠ 0)).map projectQuote).drop 1) := by
    simp [get_option_chain, hsym, hs, hrows, hne]
  refine ⟨hmain, ?_⟩
  intro l hl q hq
  rw [hmain] at hl
  injection hl with hl
  subst hl
  have hq' := List.mem_of_mem_drop hq
  rcases List.mem_map.mp hq' with ⟨r, hr, hrq⟩
  have := (List.mem_filter.mp hr).2
  subst hrq
  simpa [projectQuote] using this

/-- Witness for C2 at a concrete three-row response. -/
theorem C2_chain_filter_witness :
    get_option_chain "NSE:X" ⟨"ok", "",
        some [⟨0, 1, "CE", 90, "A", 0⟩, ⟨5, 4, "CE", 100, "B", 0⟩,
              ⟨7, 6, "CE", 110, "C", 0⟩]⟩ =
      .ok [⟨7, 6, "CE", 110, "C"⟩] :=
  (C2_chain_filter "NSE:X" ⟨"ok", "",
      some [⟨0, 1, "CE", 90, "A", 0⟩, ⟨5, 4, "CE", 100, "B", 0⟩,
            ⟨7, 6, "CE", 110, "C", 0⟩]⟩
    [⟨0, 1, "CE", 90, "A", 0⟩, ⟨5, 4, "CE", 100, "B", 0⟩,
     ⟨7, 6, "CE", 110, "C", 0⟩]
    (by decide) rfl rfl (by decide)).1

/-- C8: a refresh persistence step rewrites only the access-token and
expiry fields: the refresh token, pin and both client-id fields of
settings are unchanged, and every .env key other than
FYERS_ACCESS_TOKEN and FYERS_TOKEN_EXPIRES_AT keeps the value the file
already had. -/
theorem C8_persist_only_token_fields (settings : SettingsState)
    (env : EnvFile) (tok : String) (expInt : ℤ) (k : String)
    (hk1 : k ≠ "FYERS_ACCESS_TOKEN") (hk2 : k ≠ "FYERS_TOKEN_EXPIRES_AT") :
    (save_tokens settings env tok expInt).1.FYERS_REFRESH_TOKEN =
      settings.FYERS_REFRESH_TOKEN ∧
    (save_tokens settings env tok expInt).1.FYERS_PIN = settings.FYERS_PIN ∧
    (save_tokens settings env tok expInt).1.FYERS_CLIENT_ID =
      settings.FYERS_CLIENT_ID ∧
    (save_tokens settings env tok expInt).1.FYERS_CLIENT_ID_HASH =
      settings.FYERS_CLIENT_ID_HASH ∧
    (save_tokens settings env tok expInt).2 k = envLookup env k := by
  refine ⟨rfl, rfl, rfl, rfl, ?_⟩
  simp [save_tokens, update_env_file, List.find?,
    Ne.symm hk1, Ne.symm hk2]

/-- Witness for C8 at a concrete settings record and .env content. -/
theorem C8_persist_only_token_fields_witness :
    (save_tokens ⟨"cid", "hash", "old", "rtok", "1234", 50⟩
        [("FYERS_REFRESH_TOKEN", "rtok"), ("FYERS_PIN", "1234")]
        "new" 99).1.FYERS_REFRESH_TOKEN = "rtok" ∧
    (save_tokens ⟨"cid", "hash", "old", "rtok", "1234", 50⟩
        [("FYERS_REFRESH_TOKEN", "rtok"), ("FYERS_PIN", "1234")]
        "new" 99).2 "FYERS_REFRESH_TOKEN" =
      envLookup [("FYERS_REFRESH_TOKEN", "rtok"), ("FYERS_PIN", "1234")]
        "FYERS_REFRESH_TOKEN" := by
  have h := C8_persist_only_token_fields
    ⟨"cid", "hash", "old", "rtok", "1234", 50⟩
    [("FYERS_REFRESH_TOKEN", "rtok"), ("FYERS_PIN", "1234")]
    "new" 99 "FYERS_REFRESH_TOKEN" (by decide) (by decide)
  exact ⟨h.1, h.2.2.2.2⟩

/-- C3: a pricing batch never aborts on a per-row failure: the result
prices every row independently, a row whose pricing call fails by
transport error, bad body or missing total keeps the zero sentinel in
margin and premium, and every row whose call succeeds with a truthy
total is priced. -/
theorem C3_partial_failure (api : String → MarginResp)
    (rows : List PricedRow) (lot_size : ℤ) (hne : rows ≠ [])
    (hlot : 0 < lot_size) :
    calculate_margin_and_premium api rows lot_size =
      .ok (rows.map (priceRow api lot_size)) ∧
    (∀ r : PricedRow,
      (api r.symbol = .transportErr ∨ api r.symbol = .badJson ∨
       api r.symbol = .ok none) →
      priceRow api lot_size r = { row := r, margin := 0, premium := 0 }) ∧
    (∀ (r : PricedRow) (t : ℚ), api r.symbol = .ok (some t) → t ≠ 0 →
      priceRow api lot_size r =
        { row := r, margin := t, premium := r.bidask * (lot_size : ℚ) }) := by
  refine ⟨?_, ?_, ?_⟩
  · simp [calculate_margin_and_premium, hne, not_le.mpr hlot]
  · intro r h
    rcases h with h | h | h <;> simp [priceRow, h]
  · intro r t h ht
    simp [priceRow, h, ht]

/-- Witness for C3: five rows whose pricing call fails exactly for the
third symbol; the batch still returns all five rows, the third with the
zero sentinel. -/
theorem C3_partial_failure_witness :
    calculate_margin_and_premium
        (fun s => if s = "S3" then .transportErr else .ok (some 50))
        [⟨"CE", 100, "S1", 2, "X"⟩, ⟨"CE", 110, "S2", 3, "X"⟩,
         ⟨"CE", 120, "S3", 4, "X"⟩, ⟨"CE", 130, "S4", 5, "X"⟩,
         ⟨"CE", 140, "S5", 6, "X"⟩] 10 =
      .ok ([⟨"CE", 100, "S1", 2, "X"⟩, ⟨"CE", 110, "S2", 3, "X"⟩,
            ⟨"CE", 120, "S3", 4, "X"⟩, ⟨"CE", 130, "S4", 5, "X"⟩,
            ⟨"CE", 140, "S5", 6, "X"⟩].map
        (priceRow (fun s => if s = "S3" then .transportErr else .ok (some 50)) 10)) ∧
    priceRow (fun s => if s = "S3" then .transportErr else .ok (some 50)) 10
        ⟨"CE", 120, "S3", 4, "X"⟩ =
      { row := ⟨"CE", 120, "S3", 4, "X"⟩, margin := 0, premium := 0 } := by
  have h := C3_partial_failure
    (fun s => if s = "S3" then .transportErr else .ok (some 50))
    [⟨"CE", 100, "S1", 2, "X"⟩, ⟨"CE", 110, "S2", 3, "X"⟩,
     ⟨"CE", 120, "S3", 4, "X"⟩, ⟨"CE", 130, "S4", 5, "X"⟩,
     ⟨"CE", 140, "S5", 6, "X"⟩] 10 (by decide) (by decide)
  exact ⟨h.1, h.2.1 ⟨"CE", 120, "S3", 4, "X"⟩ (Or.inl (by decide))⟩

/-- C4: every row get_highest_option_prices emits takes its quoted
price from the ask of its source quote when the side is CE and from the
bid otherwise, and every successfully priced row gets premium equal to
that quoted price times the lot size. -/
theorem C4_quoted_price_and_premium (rows : List ChainQuote)
    (instrument_name side : String) (out : List PricedRow)
    (h : get_highest_option_prices rows instrument_name side = .ok out) :
    (∀ p ∈ out, ∃ q ∈ rows, q.option_type = side ∧
        p.bidask = (if side = "CE" then q.ask else q.bid) ∧
        p.symbol = q.symbol ∧ p.strike_price = q.strike_price) ∧
    (∀ (api : String → MarginResp) (lot_size : ℤ) (r : PricedRow) (t : ℚ),
        api r.symbol = .ok (some t) → t ≠ 0 →
        (priceRow api lot_size r).premium = r.bidask * (lot_size : ℚ)) := by
  constructor
  · intro p hp
    by_cases hrows : rows = []
    · simp [get_highest_option_prices, hrows] at h
    · rw [get_highest_option_prices, if_neg hrows] at h
      rcases hf : rows.filter (fun r => r.option_type = side) with _ | ⟨f₀, fs⟩
      · rw [hf] at h; exact absurd h (by simp)
      · rw [hf] at h
        injection h with h
        subst h
        rcases List.mem_map.mp hp with ⟨q, hq, rfl⟩
        rw [← hf] at hq
        have hmem := List.mem_filter.mp hq
        exact ⟨q, hmem.1, by simpa using hmem.2, rfl, rfl, rfl⟩
  · intro api lot_size r t hapi ht
    simp [priceRow, hapi, ht]

/-- Witness for C4: a successfully priced CE row gets premium equal to
its quoted price times the lot size. -/
theorem C4_quoted_price_and_premium_witness :
    (priceRow (fun _ => .ok (some 50)) 10 ⟨"CE", 100, "S", 7, "X"⟩).premium =
      7 * (10 : ℚ) :=
  (C4_quoted_price_and_premium [⟨7, 3, "CE", 100, "S"⟩] "X" "CE"
      [⟨"CE", 100, "S", 7, "X"⟩] rfl).2
    (fun _ => .ok (some 50)) 10 ⟨"CE", 100, "S", 7, "X"⟩ 50 rfl (by decide)

/-- C10: a margin response whose data.total is present but zero is
handled exactly like a failed call: the row keeps margin zero and
premium zero, indistinguishable from a transport failure, also inside a
batch. -/
theorem C10_falsy_total_skipped (api : String → MarginResp)
    (lot_size : ℤ) (r : PricedRow) (h0 : api r.symbol = .ok (some 0))
    (hlot : 0 < lot_size) :
    priceRow api lot_size r = { row := r, margin := 0, premium := 0 } ∧
    (∀ api2 : String → MarginResp, api2 r.symbol = .transportErr →
      priceRow api lot_size r = priceRow api2 lot_size r) ∧
    calculate_margin_and_premium api [r] lot_size =
      .ok [{ row := r, margin := 0, premium := 0 }] := by
  have h1 : priceRow api lot_size r = { row := r, margin := 0, premium := 0 } := by
    simp [priceRow, h0]
  refine ⟨h1, ?_, ?_⟩
  · intro api2 h2
    rw [h1]; simp [priceRow, h2]
  · simp [calculate_margin_and_premium, not_le.mpr hlot, h1]

/-- Witness for C10 at a concrete zero-total response. -/
theorem C10_falsy_total_skipped_witness :
    priceRow (fun _ => .ok (some 0)) 10 ⟨"CE", 100, "S", 7, "X"⟩ =
      { row := ⟨"CE", 100, "S", 7, "X"⟩, margin := 0, premium := 0 } ∧
    calculate_margin_and_premium (fun _ => .ok (some 0))
        [⟨"CE", 100, "S", 7, "X"⟩] 10 =
      .ok [{ row := ⟨"CE", 100, "S", 7, "X"⟩, margin := 0, premium := 0 }] := by
  have h := C10_falsy_total_skipped (fun _ => .ok (some 0)) 10
    ⟨"CE", 100, "S", 7, "X"⟩ rfl (by decide)
  exact ⟨h.1, h.2.2⟩

/-- get_symbol_name reduces, for a delivered nonempty catalog and valid
query, to the lot resolution of the first record matching the
(underlying, expiry, side) triple; all later matches are ignored. -/
theorem get_symbol_name_first_match (raw : List RawSymRecord)
    (n d s : String) (r : SymRecord) (rest : List SymRecord)
    (hv : SymbolUtils.validate_input_parameters n d s = .ok ())
    (hraw : raw ≠ [])
    (hf : (process_symbol_data raw).filter (symMatches n d s) = r :: rest) :
    get_symbol_name (.ok raw) n d s = lotResolve r := by
  simp [get_symbol_name, fetch_symbol_data, hv, hraw, hf]

/-- C5 counterexample: a catalog whose matched record carries the
non-integer lot size 11/2 is not rejected; resolution succeeds and
silently truncates the lot size to 5 (int coercion), contradicting the
claim that a valid lot size is a positive integer never silently
coerced. -/
theorem C5_counterexample :
    get_symbol_name
        (.ok [{ symbol := "NSE:HDFCBANK25130CE", optType := "CE",
                underSym := "HDFCBANK", expiryDate := 1738195200,
                minLotSize := .num (mkRat 11 2) }])
        "HDFCBANK" "2025-01-30" "CE" =
      .ok ("NSE:HDFCBANK25130CE", 5) := by
  rw [get_symbol_name_first_match
    [{ symbol := "NSE:HDFCBANK25130CE", optType := "CE",
       underSym := "HDFCBANK", expiryDate := 1738195200,
       minLotSize := .num (mkRat 11 2) }]
    "HDFCBANK" "2025-01-30" "CE"
    { symbol := "NSE:HDFCBANK25130CE", optType := "CE",
      underSym := "HDFCBANK", expiryDate := "2025-01-30",
      minLotSize := .num (mkRat 11 2) } []
    rfl (by decide) (by decide)]
  have h1 : ¬ (mkRat 11 2 ≤ (0 : ℚ)) := by decide
  have h2 : (⌊mkRat 11 2⌋ : ℤ) = 5 := by decide
  simp [lotResolve, h1, h2]

/-- C5 amended: a matched record whose lot size is non-numeric or not
positive makes resolution fail with a ValueError mapped to HTTP 400 (the
code has no distinct DataIntegrityError) and the record is never
returned; but a positive non-integer numeric lot size is accepted and
silently truncated to int. -/
theorem C5_lot_size_amended (raw : List RawSymRecord) (n d s : String)
    (r : SymRecord) (rest : List SymRecord)
    (hv : SymbolUtils.validate_input_parameters n d s = .ok ())
    (hraw : raw ≠ [])
    (hf : (process_symbol_data raw).filter (symMatches n d s) = r :: rest) :
    (r.minLotSize = .nonNumeric →
      get_symbol_name (.ok raw) n d s =
        .error (.http 400 "ValueError: Invalid lot size")) ∧
    (∀ q, r.minLotSize = .num q → q ≤ 0 →
      get_symbol_name (.ok raw) n d s =
        .error (.http 400 "ValueError: Invalid lot size")) ∧
    (∀ q, r.minLotSize = .num q → 0 < q →
      get_symbol_name (.ok raw) n d s = .ok (r.symbol, ⌊q⌋)) := by
  have hmain := get_symbol_name_first_match raw n d s r rest hv hraw hf
  refine ⟨?_, ?_, ?_⟩
  · intro hlot
    rw [hmain, lotResolve, hlot]
  · intro q hlot hq
    rw [hmain, lotResolve, hlot]
    simp [hq]
  · intro q hlot hq
    rw [hmain, lotResolve, hlot]
    simp [not_le.mpr hq]

/-- Witness for the amended C5: a zero lot size is rejected with the 400
ValueError and a positive fractional one is accepted truncated. -/
theorem C5_lot_size_amended_witness :
    get_symbol_name
        (.ok [{ symbol := "SYMA", optType := "CE", underSym := "HDFCBANK",
                expiryDate := 1738195200, minLotSize := .num 0 }])
        "HDFCBANK" "2025-01-30" "CE" =
      .error (.http 400 "ValueError: Invalid lot size") :=
  (C5_lot_size_amended
    [{ symbol := "SYMA", optType := "CE", underSym := "HDFCBANK",
       expiryDate := 1738195200, minLotSize := .num 0 }]
    "HDFCBANK" "2025-01-30" "CE"
    { symbol := "SYMA", optType := "CE", underSym := "HDFCBANK",
      expiryDate := "2025-01-30", minLotSize := .num 0 } []
    rfl (by decide) (by decide)).2.1 0 rfl (by decide)

/-- C7 counterexample: a catalog with two records sharing the
(HDFCBANK, 2025-01-30, CE) key resolves silently to the first record
instead of reporting a data-integrity error. -/
theorem C7_counterexample :
    get_symbol_name
        (.ok [{ symbol := "SYM1", optType := "CE", underSym := "HDFCBANK",
                expiryDate := 1738195200, minLotSize := .num 550 },
              { symbol := "SYM2", optType := "CE", underSym := "HDFCBANK",
                expiryDate := 1738195200, minLotSize := .num 1100 }])
        "HDFCBANK" "2025-01-30" "CE" = .ok ("SYM1", 550) := by
  rw [get_symbol_name_first_match
    [{ symbol := "SYM1", optType := "CE", underSym := "HDFCBANK",
       expiryDate := 1738195200, minLotSize := .num 550 },
     { symbol := "SYM2", optType := "CE", underSym := "HDFCBANK",
       expiryDate := 1738195200, minLotSize := .num 1100 }]
    "HDFCBANK" "2025-01-30" "CE"
    { symbol := "SYM1", optType := "CE", underSym := "HDFCBANK",
      expiryDate := "2025-01-30", minLotSize := .num 550 }
    [{ symbol := "SYM2", optType := "CE", underSym := "HDFCBANK",
       expiryDate := "2025-01-30", minLotSize := .num 1100 }]
    rfl (by decide) (by decide)]
  have h1 : ¬ ((550 : ℚ) ≤ 0) := by decide
  have h2 : (⌊(550 : ℚ)⌋ : ℤ) = 550 := by decide
  simp [lotResolve, h1, h2]

/-- C7 amended: when the query matches more than one catalog record,
resolution silently resolves the ambiguity by the first matching record;
no integrity error is reported and the later matches never influence the
result. -/
theorem C7_duplicate_key_first_match (raw : List RawSymRecord)
    (n d s : String) (r r2 : SymRecord) (rest : List SymRecord)
    (hv : SymbolUtils.validate_input_parameters n d s = .ok ())
    (hraw : raw ≠ [])
    (hf : (process_symbol_data raw).filter (symMatches n d s) =
      r :: r2 :: rest) :
    get_symbol_name (.ok raw) n d s = lotResolve r :=
  get_symbol_name_first_match raw n d s r (r2 :: rest) hv hraw hf

/-- Witness for the amended C7 on the two-duplicate catalog. -/
theorem C7_duplicate_key_first_match_witness :
    get_symbol_name
        (.ok [{ symbol := "SYM1", optType := "PE", underSym := "X",
                expiryDate := 1738195200, minLotSize := .num 25 },
              { symbol := "SYM2", optType := "PE", underSym := "X",
                expiryDate := 1738195200, minLotSize := .num 75 }])
        "X" "2025-01-30" "PE" =
      lotResolve { symbol := "SYM1", optType := "PE", underSym := "X",
                   expiryDate := "2025-01-30", minLotSize := .num 25 } :=
  C7_duplicate_key_first_match
    [{ symbol := "SYM1", optType := "PE", underSym := "X",
       expiryDate := 1738195200, minLotSize := .num 25 },
     { symbol := "SYM2", optType := "PE", underSym := "X",
       expiryDate := 1738195200, minLotSize := .num 75 }]
    "X" "2025-01-30" "PE"
    { symbol := "SYM1", optType := "PE", underSym := "X",
      expiryDate := "2025-01-30", minLotSize := .num 25 }
    { symbol := "SYM2", optType := "PE", underSym := "X",
      expiryDate := "2025-01-30", minLotSize := .num 75 } []
    rfl (by decide) (by decide)

/-- C6 counterexample: with a catalog that resolves the query, a valid
cached token and a chain response whose only row has ask zero (so the
filtered chain is empty), the pipeline fails with the generic HTTP 500
of the router, not with DataFetchError no-data (HTTP 404): the
DataProcessingError raised inside get_option_chain_data surfaces as an
HTTPException, which only the generic except clause of the router
catches. -/
theorem C6_counterexample :
    option_chain
        (.ok [{ symbol := "NSE:HB", optType := "CE", underSym := "HDFCBANK",
                expiryDate := 1738195200, minLotSize := .num 550 }])
        { FYERS_CLIENT_ID := "cid", FYERS_CLIENT_ID_HASH := "hash",
          FYERS_ACCESS_TOKEN := "atok", FYERS_REFRESH_TOKEN := "rtok",
          FYERS_PIN := "1234", FYERS_TOKEN_EXPIRES_AT := 1000 }
        10 (.ok "x" none)
        (fun _ _ => ⟨"ok", "", some [⟨0, 1, "CE", 100, "S", 0⟩]⟩)
        (fun _ => .ok (some 1))
        "HDFCBANK" "2025-01-30" "CE" =
      .error (.http 500 "An unexpected error occurred while processing your request") ∧
    option_chain
        (.ok [{ symbol := "NSE:HB", optType := "CE", underSym := "HDFCBANK",
                expiryDate := 1738195200, minLotSize := .num 550 }])
        { FYERS_CLIENT_ID := "cid", FYERS_CLIENT_ID_HASH := "hash",
          FYERS_ACCESS_TOKEN := "atok", FYERS_REFRESH_TOKEN := "rtok",
          FYERS_PIN := "1234", FYERS_TOKEN_EXPIRES_AT := 1000 }
        10 (.ok "x" none)
        (fun _ _ => ⟨"ok", "", some [⟨0, 1, "CE", 100, "S", 0⟩]⟩)
        (fun _ => .ok (some 1))
        "HDFCBANK" "2025-01-30" "CE" ≠
      .error (.http 404 "No data found for the specified parameters") := by
  constructor
  · rfl
  · intro h
    rw [show option_chain
        (.ok [{ symbol := "NSE:HB", optType := "CE", underSym := "HDFCBANK",
                expiryDate := 1738195200, minLotSize := .num 550 }])
        { FYERS_CLIENT_ID := "cid", FYERS_CLIENT_ID_HASH := "hash",
          FYERS_ACCESS_TOKEN := "atok", FYERS_REFRESH_TOKEN := "rtok",
          FYERS_PIN := "1234", FYERS_TOKEN_EXPIRES_AT := 1000 }
        10 (.ok "x" none)
        (fun _ _ => ⟨"ok", "", some [⟨0, 1, "CE", 100, "S", 0⟩]⟩)
        (fun _ => .ok (some 1))
        "HDFCBANK" "2025-01-30" "CE" =
      .error (.http 500 "An unexpected error occurred while processing your request")
      from rfl] at h
    simp at h

/-- C6 amended: the fetch is always issued with strike count 40 (the
pipeline result only depends on the chain oracle at strike count 40);
an empty chain after filtering makes get_option_chain_data fail with
DataProcessingError (HTTP 422), not DataFetchError no-data; and the
router turns every error of get_option_chain_data into its generic
HTTP 500. -/
theorem C6_strike40_and_empty_chain (catalog : CatalogFetch)
    (settings : SettingsState) (now : ℚ) (resp : RefreshResp)
    (f g : String → ℤ → ChainResp) (marginApi : String → MarginResp)
    (n d s : String) :
    ((∀ sym, f sym 40 = g sym 40) →
      get_option_chain_data catalog settings now resp f n d s =
      get_option_chain_data catalog settings now resp g n d s) ∧
    (∀ sym lot st,
      Calculations.validate_input_parameters n d s = .ok () →
      get_symbol_name catalog n d s = .ok (sym, lot) →
      FyersService.init settings now resp = .ok st →
      get_option_chain sym (f sym 40) = .ok [] →
      get_option_chain_data catalog settings now resp f n d s =
        .error (.http 422 "DataProcessingError: No option chain data received")) ∧
    (∀ e, Router.validate_parameters n d s = .ok () →
      get_option_chain_data catalog settings now resp f n d s = .error e →
      option_chain catalog settings now resp f marginApi n d s =
        .error (.http 500 "An unexpected error occurred while processing your request")) := by
  refine ⟨?_, ?_, ?_⟩
  · intro hfg
    unfold get_option_chain_data
    cases Calculations.validate_input_parameters n d s with
    | error e => rfl
    | ok u =>
      cases get_symbol_name catalog n d s with
      | error e => rfl
      | ok p =>
        obtain ⟨sym, lot⟩ := p
        cases FyersService.init settings now resp with
        | error e => rfl
        | ok st =>
          dsimp only
          rw [hfg sym]
  · intro sym lot st hval hsym hinit hchain
    simp [get_option_chain_data, hval, hsym, hinit, hchain]
  · intro e hval hdata
    simp [option_chain, hval, hdata]

/-- Witness for the amended C6 on the concrete empty-after-filter
scenario. -/
theorem C6_strike40_and_empty_chain_witness :
    get_option_chain_data
        (.ok [{ symbol := "NSE:HB", optType := "CE", underSym := "HDFCBANK",
                expiryDate := 1738195200, minLotSize := .num 550 }])
        { FYERS_CLIENT_ID := "cid", FYERS_CLIENT_ID_HASH := "hash",
          FYERS_ACCESS_TOKEN := "atok", FYERS_REFRESH_TOKEN := "rtok",
          FYERS_PIN := "1234", FYERS_TOKEN_EXPIRES_AT := 1000 }
        10 (.ok "x" none)
        (fun _ _ => ⟨"ok", "", some [⟨0, 1, "CE", 100, "S", 0⟩]⟩)
        "HDFCBANK" "2025-01-30" "CE" =
      .error (.http 422 "DataProcessingError: No option chain data received") ∧
    option_chain
        (.ok [{ symbol := "NSE:HB", optType := "CE", underSym := "HDFCBANK",
                expiryDate := 1738195200, minLotSize := .num 550 }])
        { FYERS_CLIENT_ID := "cid", FYERS_CLIENT_ID_HASH := "hash",
          FYERS_ACCESS_TOKEN := "atok", FYERS_REFRESH_TOKEN := "rtok",
          FYERS_PIN := "1234", FYERS_TOKEN_EXPIRES_AT := 1000 }
        10 (.ok "x" none)
        (fun _ _ => ⟨"ok", "", some [⟨0, 1, "CE", 100, "S", 0⟩]⟩)
        (fun _ => .ok (some 1))
        "HDFCBANK" "2025-01-30" "CE" =
      .error (.http 500 "An unexpected error occurred while processing your request") := by
  have h := C6_strike40_and_empty_chain
    (.ok [{ symbol := "NSE:HB", optType := "CE", underSym := "HDFCBANK",
            expiryDate := 1738195200, minLotSize := .num 550 }])
    { FYERS_CLIENT_ID := "cid", FYERS_CLIENT_ID_HASH := "hash",
      FYERS_ACCESS_TOKEN := "atok", FYERS_REFRESH_TOKEN := "rtok",
      FYERS_PIN := "1234", FYERS_TOKEN_EXPIRES_AT := 1000 }
    10 (.ok "x" none)
    (fun _ _ => ⟨"ok", "", some [⟨0, 1, "CE", 100, "S", 0⟩]⟩)
    (fun _ _ => ⟨"ok", "", some [⟨0, 1, "CE", 100, "S", 0⟩]⟩)
    (fun _ => .ok (some 1))
    "HDFCBANK" "2025-01-30" "CE"
  have h422 := h.2.1 "NSE:HB" 550
    ⟨"atok", ((1000 : ℤ) : ℚ)⟩ rfl rfl rfl rfl
  exact ⟨h422, h.2.2 (.http 422 "DataProcessingError: No option chain data received")
    rfl h422⟩

/-- C9 counterexample: two callers that both snapshot the expired
credentials before either refreshes (the schedule interleaves the
snapshot and check phases) issue two refresh calls, not exactly one:
the code has no single-flight coordination. -/
theorem C9_counterexample :
    (runSched 200 (.ok "t2" none)
        ({ token := "tok", expiry := 100, refreshCalls := 0 },
         [freshCaller, freshCaller]) [0, 1, 0, 1]).1.refreshCalls = 2 ∧
    ¬ (runSched 200 (.ok "t2" none)
        ({ token := "tok", expiry := 100, refreshCalls := 0 },
         [freshCaller, freshCaller]) [0, 1, 0, 1]).1.refreshCalls = 1 := by
  constructor
  · rfl
  · intro h
    rw [show (runSched 200 (.ok "t2" none)
        ({ token := "tok", expiry := 100, refreshCalls := 0 },
         [freshCaller, freshCaller]) [0, 1, 0, 1]).1.refreshCalls = 2 from rfl] at h
    simp at h

/-- C9 amended: refresh is not single-flight; each caller whose
snapshot of the credentials is expired issues its own refresh call.
Two callers that overlap (both snapshot before either refreshes) issue
two refresh calls; only when the callers run sequentially, the second
snapshotting after a successful refresh whose expiry is still in the
future, does the second caller reuse the token, for one refresh call in
total. -/
theorem C9_no_single_flight (g : GlobalSt) (now : ℚ) (resp : RefreshResp)
    (hexp : g.token = "" ∨ g.expiry ≤ now) (h0 : g.refreshCalls = 0) :
    (runSched now resp (g, [freshCaller, freshCaller])
        [0, 1, 0, 1]).1.refreshCalls = 2 ∧
    (∀ tok ei, resp = .ok tok ei → tok ≠ "" →
      now < now + ei.getD 86400 - 60 →
      (runSched now resp (g, [freshCaller, freshCaller])
          [0, 0, 1, 1]).1.refreshCalls = 1) := by
  obtain ⟨t, e, rc⟩ := g
  simp only [GlobalSt.refreshCalls] at h0
  subst h0
  simp only [GlobalSt.token, GlobalSt.expiry] at hexp
  constructor
  · rcases resp with _ | _ | ⟨tok, ei⟩
    · simp [runSched, sysStep, callerStep, freshCaller,
        refresh_access_token, hexp]
    · simp [runSched, sysStep, callerStep, freshCaller,
        refresh_access_token, hexp]
    · by_cases htok : tok = "" <;>
        simp [runSched, sysStep, callerStep, freshCaller,
          refresh_access_token, hexp, htok]
  · intro tok ei hresp htok hfresh
    subst hresp
    simp [runSched, sysStep, callerStep, freshCaller,
      refresh_access_token, hexp, htok, not_le.mpr hfresh,
      not_or]

/-- Witness for the amended C9 at a concrete expired state. -/
theorem C9_no_single_flight_witness :
    (runSched 200 (.ok "t2" (some 86400))
        ({ token := "tok", expiry := 100, refreshCalls := 0 },
         [freshCaller, freshCaller]) [0, 1, 0, 1]).1.refreshCalls = 2 ∧
    (runSched 200 (.ok "t2" (some 86400))
        ({ token := "tok", expiry := 100, refreshCalls := 0 },
         [freshCaller, freshCaller]) [0, 0, 1, 1]).1.refreshCalls = 1 := by
  have h := C9_no_single_flight
    { token := "tok", expiry := 100, refreshCalls := 0 } 200
    (.ok "t2" (some 86400)) (Or.inr (by decide)) rfl
  exact ⟨h.1, h.2 "t2" (some 86400) rfl (by decide) (by norm_num)⟩

end OptionsBackend
